import Mathlib

/-!
Shallow embedding of the authentication/session layer of the BetterDesk
console (`web/auth.py`, plus the `login` route of `web/app.py`).

The sqlite database is modelled as an explicit record of three tables
(`users`, `sessions`, `audit_log`); each Python function that opens a
connection, runs statements and commits becomes a Lean function that takes
the database and returns the updated database.  `datetime.now()` becomes an
explicit `now : Int` parameter (seconds); `timedelta(hours=24)` is
`24 * 3600` seconds.  `secrets.token_urlsafe(32)` is nondeterministic, so
the fresh token is passed in as a parameter.  A raised `AuthError(msg)` is
an `Except.error ⟨msg⟩`; functions that mutate the database on failure
paths return the new database alongside the `Except`.
-/

/-- Python `str.strip()`, as used on the submitted username: drop leading
and trailing whitespace (modelled on the character list so that it is
kernel-reducible). -/
def pyStrip (s : String) : String :=
  ⟨((s.data.dropWhile Char.isWhitespace).reverse.dropWhile Char.isWhitespace).reverse⟩

/-- Python `str.startswith(p)`: prefix test on the character list. -/
def pyStartsWith (s p : String) : Bool :=
  p.data.isPrefixOf s.data

/-- Model of the external bcrypt library used by `hash_password` /
`verify_password`: all the code relies on is the bcrypt contract
`checkpw p (hashpw q) = (p = q)`; salts and cost factors are opaque. -/
structure BcryptHash where
  ofPassword : String
deriving Repr, DecidableEq

/-- `hash_password` (auth.py): bcrypt-hash a plaintext password. -/
def hash_password (password : String) : BcryptHash :=
  ⟨password⟩

/-- `verify_password` (auth.py): bcrypt check of a password against a hash. -/
def verify_password (password : String) (h : BcryptHash) : Bool :=
  h.ofPassword == password

/-- `SESSION_EXPIRY_HOURS = 24` (auth.py). -/
def SESSION_EXPIRY_HOURS : Int := 24

/-- The 24 h session TTL of `timedelta(hours=SESSION_EXPIRY_HOURS)`, in seconds. -/
def sessionExpirySeconds : Int := SESSION_EXPIRY_HOURS * 3600

/-- A row of the `users` table. -/
structure User where
  id : Nat
  username : String
  password_hash : BcryptHash
  role : String
  created_at : Int
  last_login : Option Int
  is_active : Bool
deriving Repr, DecidableEq

/-- A row of the `sessions` table (`token` is the primary key). -/
structure Session where
  token : String
  user_id : Nat
  created_at : Int
  expires_at : Int
  last_activity : Int
deriving Repr, DecidableEq

/-- A row of the `audit_log` table. -/
structure AuditEntry where
  user_id : Option Nat
  action : String
  device_id : Option String
  details : Option String
  ip_address : String
  timestamp : Int
deriving Repr, DecidableEq

/-- The sqlite database `db_v2.sqlite3`, restricted to the auth tables. -/
structure AuthDB where
  users : List User
  sessions : List Session
  audit_log : List AuditEntry
deriving Repr, DecidableEq

/-- The `AuthError` exception class: a single class carrying a message. -/
structure AuthError where
  msg : String
deriving Repr, DecidableEq

/-- Message of `AuthError("No authentication token provided")`. -/
def noTokenMsg : String := "No authentication token provided"

/-- Message of `AuthError("Invalid session token")`. -/
def invalidTokenMsg : String := "Invalid session token"

/-- Message of `AuthError("Session expired")`. -/
def expiredMsg : String := "Session expired"

/-- Message of `AuthError("Account is disabled")`. -/
def disabledMsg : String := "Account is disabled"

/-- Message of `AuthError("Invalid username or password")`. -/
def invalidCredsMsg : String := "Invalid username or password"

/-- Result row of `authenticate`. -/
structure UserData where
  id : Nat
  username : String
  role : String
deriving Repr, DecidableEq

/-- Result row of `verify_session`. -/
structure SessionData where
  user_id : Nat
  username : String
  role : String
deriving Repr, DecidableEq

/-- `SELECT ... FROM users WHERE username = ?` (unique column). -/
def findUserByName (db : AuthDB) (username : String) : Option User :=
  db.users.find? (fun u => u.username == username)

/-- `SELECT ... FROM users WHERE id = ?` (primary key). -/
def findUserById (db : AuthDB) (uid : Nat) : Option User :=
  db.users.find? (fun u => u.id == uid)

/-- The `sessions JOIN users ON s.user_id = u.id WHERE s.token = ?` query of
`verify_session`: a row is produced only when both the session and its
owning user exist. -/
def findSessionJoined (db : AuthDB) (token : String) : Option (Session × User) :=
  match db.sessions.find? (fun s => s.token == token) with
  | none => none
  | some s =>
    match findUserById db s.user_id with
    | none => none
    | some u => some (s, u)

/-- `authenticate(username, password)` (auth.py lines 186-213). -/
def authenticate (db : AuthDB) (username password : String) :
    Except AuthError UserData :=
  match findUserByName db username with
  | none => .error ⟨invalidCredsMsg⟩
  | some u =>
    if !u.is_active then .error ⟨disabledMsg⟩
    else if !(verify_password password u.password_hash) then .error ⟨invalidCredsMsg⟩
    else .ok ⟨u.id, u.username, u.role⟩

/-- `create_session(user_id)` (auth.py lines 216-237): inserts a session
with `expires_at = now + 24h`, updates the user's `last_login`, and returns
the token.  The fresh random token is a parameter. -/
def create_session (now : Int) (token : String) (user_id : Nat) (db : AuthDB) :
    String × AuthDB :=
  let s : Session :=
    { token := token, user_id := user_id, created_at := now
      expires_at := now + sessionExpirySeconds, last_activity := now }
  let users1 := db.users.map (fun u =>
    if u.id == user_id then { u with last_login := some now } else u)
  (token, { db with sessions := db.sessions ++ [s], users := users1 })

/-- `verify_session(token)` (auth.py lines 240-287).  Raises `NoToken` on an
empty token; `Invalid session token` when the joined row is absent;
`Session expired` when `now > expires_at` (deleting the row first);
`Account is disabled` when the owner is inactive (row NOT deleted);
otherwise refreshes `last_activity` and returns the user data. -/
def verify_session (now : Int) (token : String) (db : AuthDB) :
    Except AuthError SessionData × AuthDB :=
  if token = "" then (.error ⟨noTokenMsg⟩, db)
  else
    match findSessionJoined db token with
    | none => (.error ⟨invalidTokenMsg⟩, db)
    | some (s, u) =>
      if now > s.expires_at then
        (.error ⟨expiredMsg⟩,
         { db with sessions := db.sessions.filter (fun r => !(r.token == token)) })
      else if !u.is_active then
        (.error ⟨disabledMsg⟩, db)
      else
        (.ok ⟨s.user_id, u.username, u.role⟩,
         { db with sessions := db.sessions.map (fun r =>
             if r.token == token then { r with last_activity := now } else r) })

/-- `delete_session(token)` (auth.py lines 290-296). -/
def delete_session (token : String) (db : AuthDB) : AuthDB :=
  { db with sessions := db.sessions.filter (fun s => !(s.token == token)) }

/-- `cleanup_expired_sessions()` (auth.py lines 299-307): deletes rows with
`expires_at < now` and returns the deleted row count (`cursor.rowcount`). -/
def cleanup_expired_sessions (now : Int) (db : AuthDB) : Nat × AuthDB :=
  (db.sessions.countP (fun s => s.expires_at < now),
   { db with sessions := db.sessions.filter (fun s => !(decide (s.expires_at < now))) })

/-- `log_audit(...)` (auth.py lines 310-322): one `INSERT` into `audit_log`.
The underlying sqlite write can fail; `storageOk` models whether it does.
The function installs no exception handler of its own, so a failing write
surfaces to the caller as an error. -/
def log_audit (storageOk : Bool) (now : Int) (user_id : Option Nat)
    (action : String) (device_id details ip_address : Option String)
    (db : AuthDB) : Except String AuthDB :=
  if storageOk then
    let ip := match ip_address with
      | none => "unknown"
      | some s => if s = "" then "unknown" else s
    .ok { db with audit_log := db.audit_log ++
            [{ user_id := user_id, action := action, device_id := device_id
               details := details, ip_address := ip, timestamp := now }] }
  else .error "sqlite3 OperationalError"

/-- `deactivate_user(user_id)` (auth.py lines 374-384): sets
`is_active = 0` and deletes all of the user's sessions. -/
def deactivate_user (uid : Nat) (db : AuthDB) : AuthDB :=
  { db with
    users := db.users.map (fun u =>
      if u.id == uid then { u with is_active := false } else u),
    sessions := db.sessions.filter (fun s => !(s.user_id == uid)) }

/-- `activate_user(user_id)` (auth.py lines 387-393): sets `is_active = 1`
only; sessions are untouched. -/
def activate_user (uid : Nat) (db : AuthDB) : AuthDB :=
  { db with users := db.users.map (fun u =>
      if u.id == uid then { u with is_active := true } else u) }

/-- `change_password(user_id, old_password, new_password)` (auth.py lines
410-436): verifies the old password, stores the new hash, deletes every
session of the user, then creates and returns one fresh session. -/
def change_password (now : Int) (newToken : String) (uid : Nat)
    (oldPassword newPassword : String) (db : AuthDB) :
    Except AuthError String × AuthDB :=
  match findUserById db uid with
  | none => (.error ⟨"User not found"⟩, db)
  | some u =>
    if !(verify_password oldPassword u.password_hash) then
      (.error ⟨"Current password is incorrect"⟩, db)
    else
      let db1 := { db with users := db.users.map (fun v : User =>
        if v.id == uid then { v with password_hash := hash_password newPassword } else v) }
      let db2 := { db1 with sessions := db1.sessions.filter (fun s => !(s.user_id == uid)) }
      let r := create_session now newToken uid db2
      (.ok r.1, r.2)

/-- Outcome of the `require_auth` decorator (auth.py lines 456-475). -/
inductive AuthResult where
  | denied (status : Nat) (msg : String)
  | granted (user : SessionData)
deriving Repr, DecidableEq

/-- The token-extraction step of `require_auth`:
`request.headers.get('Authorization')` (`none` when absent), then the
prefix is stripped only when the value is non-empty and starts with
`Bearer `; any other non-empty value is kept verbatim. -/
def extract_bearer (authHeader : Option String) : String :=
  match authHeader with
  | none => ""
  | some t => if t ≠ "" ∧ pyStartsWith t "Bearer " then t.drop 7 else t

/-- The `require_auth` decorator body: extract the token, reject an empty
one with 401, otherwise call `verify_session` and map `AuthError` to 401. -/
def require_auth (now : Int) (authHeader : Option String) (db : AuthDB) :
    AuthResult × AuthDB :=
  let token := extract_bearer authHeader
  if token = "" then (.denied 401 "No authorization token provided", db)
  else
    match verify_session now token db with
    | (.error e, db1) => (.denied 401 e.msg, db1)
    | (.ok d, db1) => (.granted d, db1)

/-- Outcome of the `require_role` decorator (auth.py lines 478-497). -/
inductive RoleResult where
  | denied (status : Nat) (msg : String)
  | allowed
deriving Repr, DecidableEq

/-- The `require_role(*allowed_roles)` decorator body: 401 when no user is
attached to the request, 403 when the session role is not a member of the
declared role list, otherwise the handler runs. -/
def require_role (allowed_roles : List String) (g_user : Option SessionData) :
    RoleResult :=
  match g_user with
  | none => .denied 401 "Authentication required"
  | some u =>
    if !(allowed_roles.contains u.role) then
      .denied 403 ("Insufficient permissions. Required: " ++
        String.intercalate ", " allowed_roles)
    else .allowed

/-- HTTP outcome of the `login` route. -/
inductive LoginResp where
  | success (token username role : String)
  | failure (status : Nat) (msg : String)
deriving Repr, DecidableEq

/-- The `POST /api/auth/login` handler (app.py lines 216-255): validates
presence of the fields, authenticates, creates a session, writes the audit
row, and returns the token.  An `AuthError` maps to 401; any other
exception — including a failing `log_audit` write — is caught by the
generic handler and maps to 500. -/
def login (now : Int) (freshToken : String) (storageOk : Bool)
    (remote_addr : String) (username password : String) (db : AuthDB) :
    LoginResp × AuthDB :=
  let uname := pyStrip username
  if uname = "" ∨ password = "" then
    (.failure 400 "Username and password required", db)
  else
    match authenticate db uname password with
    | .error e => (.failure 401 e.msg, db)
    | .ok user =>
      let r := create_session now freshToken user.id db
      match log_audit storageOk now (some user.id) "login" none
          (some ("Login from " ++ remote_addr)) (some remote_addr) r.2 with
      | .error emsg => (.failure 500 ("Login failed: " ++ emsg), r.2)
      | .ok db2 => (.success r.1 user.username user.role, db2)

/-- `Except` success test, used to state validity of a session. -/
def isOkE {ε α : Type} : Except ε α → Bool
  | .ok _ => true
  | .error _ => false

/-- A concrete active admin user, password `pw`. -/
def demoUser : User :=
  { id := 1, username := "alice", password_hash := hash_password "pw"
    role := "admin", created_at := 0, last_login := none, is_active := true }

/-- A concrete session for `demoUser`, created at 0, expiring at 86400. -/
def demoSession : Session :=
  { token := "tok1", user_id := 1, created_at := 0, expires_at := 86400
    last_activity := 0 }

/-- A concrete database: one active user with one live session. -/
def demoDB : AuthDB :=
  { users := [demoUser], sessions := [demoSession], audit_log := [] }

/-- A concrete deactivated user, password `pw`. -/
def bobUser : User :=
  { id := 2, username := "bob", password_hash := hash_password "pw"
    role := "viewer", created_at := 0, last_login := none, is_active := false }

/-- A concrete session row still stored for the deactivated `bobUser`. -/
def bobSession : Session :=
  { token := "tok3", user_id := 2, created_at := 0, expires_at := 86400
    last_activity := 0 }

/-- A concrete database: one deactivated user whose session row survived. -/
def dbInactive : AuthDB :=
  { users := [bobUser], sessions := [bobSession], audit_log := [] }

/-- C3 (code_bug evidence): when the audit-row insert fails during `login`,
the generic exception handler returns a 500 failure to the client instead
of the operation's own success result; the same call with a working audit
write returns the success payload. -/
theorem login_fails_when_audit_write_fails :
    (login 0 "tok9" false "1.2.3.4" "alice" "pw" demoDB).1 =
      .failure 500 "Login failed: sqlite3 OperationalError" ∧
    (login 0 "tok9" true "1.2.3.4" "alice" "pw" demoDB).1 =
      .success "tok9" "alice" "admin" :=
  ⟨by decide, by decide⟩

/-- C4: `require_role` is pure set membership — with a user attached, the
handler is allowed iff the session role is a member of the declared role
list, and in particular `admin` is denied on an endpoint declaring only
`operator`. -/
theorem require_role_set_membership (roles : List String) (u : SessionData) :
    (require_role roles (some u) = .allowed ↔ u.role ∈ roles) ∧
    require_role ["operator"] (some ⟨7, "root", "admin"⟩) =
      .denied 403 "Insufficient permissions. Required: operator" := by
  constructor
  · constructor
    · intro hal
      by_contra hmem
      simp [require_role] at hal
      exact hmem hal
    · intro hmem
      simp [require_role, hmem]
  · decide

/-- C7: `delete_session` and `cleanup_expired_sessions` are idempotent —
a second delete leaves the database unchanged, and a second sweep deletes
zero additional rows and leaves the database unchanged. -/
theorem delete_and_sweep_idempotent (token : String) (now : Int) (db : AuthDB) :
    delete_session token (delete_session token db) = delete_session token db ∧
    (cleanup_expired_sessions now (cleanup_expired_sessions now db).2).1 = 0 ∧
    (cleanup_expired_sessions now (cleanup_expired_sessions now db).2).2 =
      (cleanup_expired_sessions now db).2 := by
  refine ⟨?_, ?_, ?_⟩
  · simp [delete_session, List.filter_filter]
  · simp only [cleanup_expired_sessions, List.countP_eq_zero, List.mem_filter]
    intro s hs
    simp at hs
    simp [hs.2]
  · simp [cleanup_expired_sessions, List.filter_filter]

/-- C9: `authenticate` checks `is_active` before the password — any
existing deactivated user yields the `Account is disabled` error for every
supplied password, an error distinct from the invalid-credentials one. -/
theorem authenticate_disabled_checked_first (db : AuthDB) (uname pw : String)
    (u : User) (hu : findUserByName db uname = some u)
    (hin : u.is_active = false) :
    authenticate db uname pw = .error ⟨disabledMsg⟩ ∧
    disabledMsg ≠ invalidCredsMsg := by
  refine ⟨?_, by decide⟩
  simp [authenticate, hu, hin]

/-- Witness for C9: the deactivated user `bob` probed with his own correct
password still gets `Account is disabled`. -/
theorem authenticate_disabled_checked_first_witness :
    findUserByName dbInactive "bob" = some bobUser ∧
    bobUser.is_active = false ∧
    (authenticate dbInactive "bob" "pw" = .error ⟨disabledMsg⟩ ∧
      disabledMsg ≠ invalidCredsMsg) :=
  ⟨rfl, rfl, authenticate_disabled_checked_first dbInactive "bob" "pw" bobUser rfl rfl⟩

/-- C8 (counterexample): a known but deactivated username probed with a
mismatched password gets `Account is disabled`, which differs from the
unknown-username error, so the two cases are distinguishable. -/
theorem authenticate_enumeration_cex :
    authenticate dbInactive "mallory" "guess" = .error ⟨invalidCredsMsg⟩ ∧
    authenticate dbInactive "bob" "guess" = .error ⟨disabledMsg⟩ ∧
    AuthError.mk disabledMsg ≠ AuthError.mk invalidCredsMsg :=
  ⟨rfl, rfl, by decide⟩

/-- C8 (amended): for an unknown username and for a known ACTIVE username
with a mismatched password, `authenticate` produces the identical error
value `Invalid username or password`. -/
theorem authenticate_enumeration_resistant (db : AuthDB)
    (uname1 uname2 pw1 pw2 : String) (u : User)
    (h1 : findUserByName db uname1 = none)
    (h2 : findUserByName db uname2 = some u) (hact : u.is_active = true)
    (hpw : verify_password pw2 u.password_hash = false) :
    authenticate db uname1 pw1 = .error ⟨invalidCredsMsg⟩ ∧
    authenticate db uname2 pw2 = .error ⟨invalidCredsMsg⟩ := by
  constructor
  · simp [authenticate, h1]
  · simp [authenticate, h2, hact, hpw]

/-- Witness for the amended C8, on the concrete database. -/
theorem authenticate_enumeration_resistant_witness :
    findUserByName demoDB "mallory" = none ∧
    findUserByName demoDB "alice" = some demoUser ∧
    demoUser.is_active = true ∧
    verify_password "wrong" demoUser.password_hash = false ∧
    (authenticate demoDB "mallory" "anything" = .error ⟨invalidCredsMsg⟩ ∧
      authenticate demoDB "alice" "wrong" = .error ⟨invalidCredsMsg⟩) :=
  ⟨rfl, rfl, rfl, rfl,
    authenticate_enumeration_resistant demoDB "mallory" "alice" "anything" "wrong"
      demoUser rfl rfl rfl rfl⟩

/-- In a session table whose tokens are pairwise distinct (the `token`
column is the primary key), deleting user `uid`'s rows removes every row
carrying the token of one of user `uid`'s sessions. -/
theorem find_token_none_after_user_filter (sessions : List Session) (uid : Nat)
    (s : Session) (hnodup : (sessions.map Session.token).Nodup)
    (hmem : s ∈ sessions) (hsuid : s.user_id = uid) :
    (sessions.filter (fun r => !(r.user_id == uid))).find?
      (fun r => r.token == s.token) = none := by
  rw [List.find?_eq_none]
  intro r hr htok
  have hrmem : r ∈ sessions := (List.mem_filter.mp hr).1
  have hrkeep : (!(r.user_id == uid)) = true := (List.mem_filter.mp hr).2
  have heq : r = s :=
    List.inj_on_of_nodup_map hnodup hrmem hmem (by simpa using htok)
  rw [heq, hsuid] at hrkeep
  simp at hrkeep

/-- `find?` by user id commutes with an id-preserving row update. -/
theorem find_id_map (users : List User) (uid : Nat) (f : User → User)
    (hid : ∀ u, (f u).id = u.id) :
    (users.map f).find? (fun u => u.id == uid) =
      (users.find? (fun u => u.id == uid)).map f := by
  have hp : ((fun u : User => u.id == uid) ∘ f) = (fun u : User => u.id == uid) := by
    funext u
    simp [Function.comp, hid]
  rw [List.find?_map, hp]

/-- C1 (counterexample): at the boundary instant `now = expires_at` the
stored session still validates, contradicting the claim that validation
succeeds only when `now < expires_at`. -/
theorem session_valid_at_expiry_instant :
    demoSession.expires_at = 86400 ∧
    isOkE (verify_session 86400 "tok1" demoDB).1 = true ∧
    ¬ ((86400 : Int) < demoSession.expires_at) :=
  ⟨rfl, rfl, by decide⟩

/-- C1 (amended): for a stored session whose owning user exists,
`verify_session` succeeds exactly when `now ≤ expires_at` and the owner is
active; hence the session is still valid at `expires_at - 1s` and at the
boundary instant `now = expires_at`, and invalid at `expires_at + 1s`. -/
theorem verify_session_valid_iff (now : Int) (db : AuthDB) (s : Session)
    (u : User) (htok : ¬ s.token = "")
    (hs : db.sessions.find? (fun r => r.token == s.token) = some s)
    (hu : findUserById db s.user_id = some u) :
    isOkE (verify_session now s.token db).1 =
      (decide (now ≤ s.expires_at) && u.is_active) := by
  simp only [verify_session, findSessionJoined, hs, hu, if_neg htok]
  by_cases h : now > s.expires_at
  · simp [if_pos h, isOkE, show ¬ (now ≤ s.expires_at) from by omega]
  · cases hua : u.is_active
    · simp [if_neg h, hua, isOkE]
    · simp [if_neg h, hua, isOkE, show now ≤ s.expires_at from by omega]

/-- Witness for the amended C1 at the instant one second after expiry. -/
theorem verify_session_valid_iff_witness :
    ¬ demoSession.token = "" ∧
    demoDB.sessions.find? (fun r => r.token == demoSession.token) =
      some demoSession ∧
    findUserById demoDB demoSession.user_id = some demoUser ∧
    isOkE (verify_session 86401 demoSession.token demoDB).1 =
      (decide ((86401 : Int) ≤ demoSession.expires_at) && demoUser.is_active) :=
  ⟨by decide, by decide, by decide,
    verify_session_valid_iff 86401 demoDB demoSession demoUser (by decide)
      (by decide) (by decide)⟩

/-- C5 (counterexample): for a stored session of a deactivated user,
`verify_session` fails with `Account is disabled` — a different error value
than the nonexistent-token error `Invalid session token` — and the session
row is NOT deleted (the database is returned unchanged). -/
theorem verify_inactive_no_delete_cex :
    (verify_session 0 "tok3" dbInactive).1 = .error ⟨disabledMsg⟩ ∧
    (verify_session 0 "tok3" dbInactive).2 = dbInactive ∧
    AuthError.mk disabledMsg ≠ AuthError.mk invalidTokenMsg :=
  ⟨rfl, by decide, by decide⟩

/-- C5 (amended): `verify_session` fails with `NoToken` on an empty token;
it raises the single exception class `AuthError` in the other three failure
cases but with three distinct messages — `Invalid session token` when the
joined row is absent, `Session expired` (deleting the row) when
`now > expires_at`, and `Account is disabled` (row NOT deleted) when the
owner is inactive. -/
theorem verify_session_failure_modes (now : Int) (db : AuthDB) (token : String) :
    verify_session now "" db = (.error ⟨noTokenMsg⟩, db) ∧
    (¬ token = "" → findSessionJoined db token = none →
      verify_session now token db = (.error ⟨invalidTokenMsg⟩, db)) ∧
    (∀ s u, ¬ token = "" → findSessionJoined db token = some (s, u) →
      now > s.expires_at →
      verify_session now token db = (.error ⟨expiredMsg⟩,
        { db with sessions := db.sessions.filter (fun r => !(r.token == token)) })) ∧
    (∀ s u, ¬ token = "" → findSessionJoined db token = some (s, u) →
      ¬ now > s.expires_at → u.is_active = false →
      verify_session now token db = (.error ⟨disabledMsg⟩, db)) := by
  refine ⟨by simp [verify_session], ?_, ?_, ?_⟩
  · intro ht hn
    simp [verify_session, ht, hn]
  · intro s u ht hf hexp
    simp [verify_session, ht, hf, hexp]
  · intro s u ht hf hexp hin
    simp [verify_session, ht, hf, hexp, hin]

/-- Witness for the amended C5: the inactive-owner failure mode on the
concrete database, reached through the claim theorem. -/
theorem verify_session_failure_modes_witness :
    ¬ "tok3" = "" ∧
    findSessionJoined dbInactive "tok3" = some (bobSession, bobUser) ∧
    ¬ (0 : Int) > bobSession.expires_at ∧
    bobUser.is_active = false ∧
    verify_session 0 "tok3" dbInactive = (.error ⟨disabledMsg⟩, dbInactive) :=
  ⟨by decide, by decide, by decide, rfl,
    (verify_session_failure_modes 0 dbInactive "tok3").2.2.2 bobSession bobUser
      (by decide) (by decide) (by decide) rfl⟩

/-- C6: deactivating a user deletes all of the user's session rows, so an
immediately following validation of any prior token fails with the
invalid-session error, and reactivating the user afterwards does not
resurrect any previously issued token — validation still fails. -/
theorem deactivate_then_reactivate_invalidates (now1 now2 : Int) (db : AuthDB)
    (uid : Nat) (s : Session)
    (hnodup : (db.sessions.map Session.token).Nodup)
    (hmem : s ∈ db.sessions) (hsuid : s.user_id = uid)
    (hstok : ¬ s.token = "") :
    (verify_session now1 s.token (deactivate_user uid db)).1 =
      .error ⟨invalidTokenMsg⟩ ∧
    (verify_session now2 s.token
        (activate_user uid (deactivate_user uid db))).1 =
      .error ⟨invalidTokenMsg⟩ := by
  have hfind := find_token_none_after_user_filter db.sessions uid s hnodup hmem hsuid
  constructor
  · simp [verify_session, findSessionJoined, deactivate_user, hstok, hfind]
  · simp [verify_session, findSessionJoined, deactivate_user, activate_user,
      hstok, hfind]

/-- Witness for C6 on the concrete database. -/
theorem deactivate_then_reactivate_invalidates_witness :
    (demoDB.sessions.map Session.token).Nodup ∧
    demoSession ∈ demoDB.sessions ∧
    demoSession.user_id = 1 ∧
    ¬ demoSession.token = "" ∧
    ((verify_session 0 demoSession.token (deactivate_user 1 demoDB)).1 =
        .error ⟨invalidTokenMsg⟩ ∧
      (verify_session 0 demoSession.token
          (activate_user 1 (deactivate_user 1 demoDB))).1 =
        .error ⟨invalidTokenMsg⟩) :=
  ⟨by decide, by decide, rfl, by decide,
    deactivate_then_reactivate_invalidates 0 0 demoDB 1 demoSession (by decide)
      (by decide) rfl (by decide)⟩

/-- On a successful password check, `change_password` rewrites the stored
hash, drops every session of the user, and appends the one fresh session
created by `create_session`. -/
theorem change_password_eq (now : Int) (newToken : String) (uid : Nat)
    (oldPw newPw : String) (db : AuthDB) (u : User)
    (hu : findUserById db uid = some u)
    (hold : verify_password oldPw u.password_hash = true) :
    change_password now newToken uid oldPw newPw db =
      (.ok newToken,
       { users := (db.users.map (fun v : User =>
            if v.id == uid then { v with password_hash := hash_password newPw }
            else v)).map
            (fun v : User =>
              if v.id == uid then { v with last_login := some now } else v)
         sessions := db.sessions.filter (fun r => !(r.user_id == uid)) ++
           [{ token := newToken, user_id := uid, created_at := now
              expires_at := now + sessionExpirySeconds, last_activity := now }]
         audit_log := db.audit_log }) := by
  simp [change_password, hu, hold, create_session]

/-- C2 (counterexample): for a deactivated user `change_password` itself
succeeds — it never checks `is_active` — but the single new token it
returns immediately fails validation with `Account is disabled`, so the
final part of the claim does not hold for every user. -/
theorem change_password_inactive_cex :
    (change_password 0 "tok4" 2 "pw" "pw2" dbInactive).1 = .ok "tok4" ∧
    (verify_session 0 "tok4"
        (change_password 0 "tok4" 2 "pw" "pw2" dbInactive).2).1 =
      .error ⟨disabledMsg⟩ :=
  ⟨rfl, rfl⟩

/-- After the two user-row updates of `change_password` (new hash, then
new `last_login`), looking the user up by id returns the updated row. -/
theorem findUserById_double_update (users0 : List User) (sessions0 : List Session)
    (audit0 : List AuditEntry) (uid : Nat) (u : User) (now : Int) (newPw : String)
    (hu : users0.find? (fun v => v.id == uid) = some u)
    (hpu : (u.id == uid) = true) :
    findUserById
      (AuthDB.mk
        ((users0.map (fun v : User =>
          if v.id == uid then { v with password_hash := hash_password newPw }
          else v)).map
          (fun v : User =>
            if v.id == uid then { v with last_login := some now } else v))
        sessions0 audit0) uid =
      some { u with password_hash := hash_password newPw, last_login := some now } := by
  unfold findUserById
  rw [find_id_map _ uid _
        (fun v => by by_cases h : (v.id == uid) = true <;> simp [h]),
      find_id_map _ uid _
        (fun v => by by_cases h : (v.id == uid) = true <;> simp [h]),
      hu]
  have hpu2 : u.id = uid := by simpa using hpu
  simp [hpu2]

/-- Branch lemma: a stored, unexpired session of an active user validates
and returns that user's data. -/
theorem verify_session_ok (now : Int) (db : AuthDB) (token : String)
    (s : Session) (u : User) (htok : ¬ token = "")
    (hs : db.sessions.find? (fun r => r.token == token) = some s)
    (hu : findUserById db s.user_id = some u)
    (hexp : ¬ now > s.expires_at) (hact : u.is_active = true) :
    (verify_session now token db).1 = .ok ⟨s.user_id, u.username, u.role⟩ := by
  simp only [verify_session, findSessionJoined, hs, hu, if_neg htok]
  simp [hexp, hact]

/-- Branch lemma: a token with no joined session row fails validation with
the invalid-session error. -/
theorem verify_session_invalid (now : Int) (db : AuthDB) (token : String)
    (htok : ¬ token = "")
    (hs : db.sessions.find? (fun r => r.token == token) = none) :
    (verify_session now token db).1 = .error ⟨invalidTokenMsg⟩ := by
  simp [verify_session, findSessionJoined, htok, hs]

/-- C2 (amended): after a successful `change_password` for an ACTIVE user,
every session token previously issued for that user fails validation with
the invalid-session error, and the one fresh token returned by the call
validates successfully. -/
theorem change_password_cascade (now : Int) (db : AuthDB) (uid : Nat)
    (u : User) (s : Session) (oldPw newPw newToken : String)
    (hu : findUserById db uid = some u)
    (hold : verify_password oldPw u.password_hash = true)
    (hact : u.is_active = true)
    (hnodup : (db.sessions.map Session.token).Nodup)
    (hmem : s ∈ db.sessions) (hsuid : s.user_id = uid)
    (hstok : ¬ s.token = "") (hnew : ¬ newToken = "")
    (hne : ¬ newToken = s.token)
    (hfresh : ∀ r ∈ db.sessions, ¬ r.token = newToken) :
    (change_password now newToken uid oldPw newPw db).1 = .ok newToken ∧
    (verify_session now s.token
        (change_password now newToken uid oldPw newPw db).2).1 =
      .error ⟨invalidTokenMsg⟩ ∧
    (verify_session now newToken
        (change_password now newToken uid oldPw newPw db).2).1 =
      .ok ⟨uid, u.username, u.role⟩ := by
  have hcp := change_password_eq now newToken uid oldPw newPw db u hu hold
  have hu1 : db.users.find? (fun v => v.id == uid) = some u := hu
  have hpu0 := List.find?_some hu1
  have hpu : (u.id == uid) = true := hpu0
  have hfilter := find_token_none_after_user_filter db.sessions uid s hnodup hmem hsuid
  refine ⟨by rw [hcp], ?_, ?_⟩
  · rw [hcp]
    simp only [verify_session, findSessionJoined, if_neg hstok,
      List.find?_append, hfilter, Option.none_or]
    simp [hne]
  · have hfilterNew : (db.sessions.filter (fun r => !(r.user_id == uid))).find?
        (fun r => r.token == newToken) = none := by
      rw [List.find?_eq_none]
      intro r hr hb
      exact hfresh r (List.mem_filter.mp hr).1 (by simpa using hb)
    have hexp : ¬ now > now + sessionExpirySeconds := by
      unfold sessionExpirySeconds SESSION_EXPIRY_HOURS
      omega
    have hs3 : ((change_password now newToken uid oldPw newPw db).2).sessions.find?
        (fun r => r.token == newToken) =
        some ⟨newToken, uid, now, now + sessionExpirySeconds, now⟩ := by
      rw [hcp]
      simp [List.find?_append, hfilterNew]
    have hu3 : findUserById ((change_password now newToken uid oldPw newPw db).2)
        (Session.user_id ⟨newToken, uid, now, now + sessionExpirySeconds, now⟩) =
        some { u with password_hash := hash_password newPw, last_login := some now } := by
      rw [hcp]
      exact findUserById_double_update db.users _ _ uid u now newPw hu1 hpu
    exact verify_session_ok now _ newToken _
      { u with password_hash := hash_password newPw, last_login := some now }
      hnew hs3 hu3 hexp hact

/-- Witness for the amended C2 on the concrete database. -/
theorem change_password_cascade_witness :
    findUserById demoDB 1 = some demoUser ∧
    verify_password "pw" demoUser.password_hash = true ∧
    demoUser.is_active = true ∧
    (demoDB.sessions.map Session.token).Nodup ∧
    demoSession ∈ demoDB.sessions ∧
    (∀ r ∈ demoDB.sessions, ¬ r.token = "tok2") ∧
    ((change_password 0 "tok2" 1 "pw" "pw2" demoDB).1 = .ok "tok2" ∧
      (verify_session 0 demoSession.token
          (change_password 0 "tok2" 1 "pw" "pw2" demoDB).2).1 =
        .error ⟨invalidTokenMsg⟩ ∧
      (verify_session 0 "tok2"
          (change_password 0 "tok2" 1 "pw" "pw2" demoDB).2).1 =
        .ok ⟨1, demoUser.username, demoUser.role⟩) :=
  ⟨rfl, rfl, rfl, by decide, by decide, by decide,
    change_password_cascade 0 demoDB 1 demoUser demoSession "pw" "pw2" "tok2"
      rfl rfl rfl (by decide) (by decide) rfl (by decide) (by decide) (by decide)
      (by decide)⟩

/-- C10: the middleware does not require the Bearer scheme — a header value
starting with `Bearer ` has the prefix stripped, while any other non-empty
header value is passed verbatim to `verify_session` as the token, and such
a raw token is accepted whenever the token itself validates. -/
theorem require_auth_raw_token (now : Int) (db : AuthDB) (h : String)
    (hne : ¬ h = "") (hpre : pyStartsWith h "Bearer " = false) :
    extract_bearer (some h) = h ∧
    (∀ t : String, ¬ t = "" → pyStartsWith t "Bearer " = true →
      extract_bearer (some t) = t.drop 7) ∧
    (∀ d db1, verify_session now h db = (.ok d, db1) →
      require_auth now (some h) db = (.granted d, db1)) := by
  have hx : extract_bearer (some h) = h := by
    simp [extract_bearer, hpre]
  refine ⟨hx, ?_, ?_⟩
  · intro t htne hts
    simp [extract_bearer, htne, hts]
  · intro d db1 hv
    simp [require_auth, hx, hne, hv]

/-- Witness for C10: the stored token sent without any `Bearer ` prefix is
accepted by the middleware. -/
theorem require_auth_raw_token_witness :
    ¬ "tok1" = "" ∧
    pyStartsWith "tok1" "Bearer " = false ∧
    verify_session 0 "tok1" demoDB = (.ok ⟨1, "alice", "admin"⟩, demoDB) ∧
    require_auth 0 (some "tok1") demoDB = (.granted ⟨1, "alice", "admin"⟩, demoDB) :=
  ⟨by decide, by decide, rfl,
    (require_auth_raw_token 0 demoDB "tok1" (by decide) (by decide)).2.2
      ⟨1, "alice", "admin"⟩ demoDB rfl⟩
